import Mathlib

/-!
Verification of the capsule-obstacle geometry and fixture-synchronization
component (`CUCapsuleObstacle.cpp`).  The C++ state of a `CapsuleObstacle`
(its `_dimension`, `_orient`, `_seamEpsilon`, `_center` AABB, the cached
polygon corners `_shape`, the circle shape `_ends`, the shared fixture
descriptor `_fixture`, and the six fixture handles on the real/draw bodies)
is embedded as an explicit record over ℚ (exact rationals standing for the
C++ `float`s; every arithmetic step performed by the code is a division or
multiplication by 2, an addition or a subtraction, so the rational model
tracks the source expression for expression).  Each member function becomes
a state-transformer; `CUAssertLog` failure is modelled as `Option.none`
(the assertion aborts before any mutation).  CreateFixture/DestroyFixture
calls on the two Box2D bodies are modelled by the handle fields plus
per-body created/destroyed counters (Box2D clones the shape descriptor at
creation time, so a fixture is a snapshot of the descriptor).
-/

namespace CapsuleModel

/-- Two-dimensional vector (`b2Vec2` / `cugl::Vec2`) over exact rationals. -/
structure Vec2 where
  x : ℚ
  y : ℚ
deriving DecidableEq, Repr

/-- A width/height pair (`cugl::Size`). -/
structure Size where
  width : ℚ
  height : ℚ
deriving DecidableEq, Repr

/-- Axis-aligned bounding box (`b2AABB`), the `_center` core rectangle. -/
structure AABB where
  lowerBound : Vec2
  upperBound : Vec2
deriving DecidableEq, Repr

/-- The capsule orientation enum (`cugl::poly2::Capsule`). -/
inductive Capsule where
  | FULL
  | HALF
  | HALF_REVERSE
  | DEGENERATE
deriving DecidableEq, Repr

/-- A Box2D shape as captured by a created fixture: either the core polygon
(`b2PolygonShape`, stored as its four corners) or a cap circle
(`b2CircleShape`, center `m_p` and radius `m_radius`). -/
inductive B2Shape where
  | polygon (corners : List Vec2)
  | circle (p : Vec2) (radius : ℚ)
deriving DecidableEq, Repr

/-- A created fixture: snapshot of the shape and the density that the shared
`_fixture` descriptor carried when `CreateFixture` was called. -/
structure Fixture where
  shape : B2Shape
  density : ℚ
deriving DecidableEq, Repr

/-- The state of a `CapsuleObstacle`.  Fields mirror the C++ members:
`dimension` = `_dimension`, `orient` = `_orient`, `seamEpsilon` =
`_seamEpsilon`, `center` = `_center`, `shapeCorners` = the corners passed to
`_shape.Set`, `endsRadius`/`endsP` = `_ends.m_radius`/`_ends.m_p`,
`fixtureDensity` = `_fixture.density`, the six handle fields = `_realcore`,
`_drawcore`, `_realcap1`, `_drawcap1`, `_realcap2`, `_drawcap2`.
`attached` models `_realbody != nullptr && _drawbody != nullptr`;
`masseffect` models `_masseffect`; `dirty` models the `markDirty` flag.
The four counters count `CreateFixture`/`DestroyFixture` calls issued on
each body, to track native-handle leaks. -/
structure CapsuleObstacle where
  dimension : Size
  orient : Capsule
  seamEpsilon : ℚ
  center : AABB
  shapeCorners : List Vec2
  endsRadius : ℚ
  endsP : Vec2
  fixtureDensity : ℚ
  realcore : Option Fixture
  drawcore : Option Fixture
  realcap1 : Option Fixture
  drawcap1 : Option Fixture
  realcap2 : Option Fixture
  drawcap2 : Option Fixture
  attached : Bool
  masseffect : Bool
  dirty : Bool
  realCreated : Nat
  realDestroyed : Nat
  drawCreated : Nat
  drawDestroyed : Nat
deriving DecidableEq, Repr

/-- `#define DEFAULT_EPSILON 0.01`. -/
def DEFAULT_EPSILON : ℚ := 1 / 100

/-- `CapsuleObstacle::resize(const Size size)`, lines 96-196.  Note two
features of the source translated verbatim: (a) the preamble subtracts the
major extent from the minor one (`ih -= iw` when `width > height`, `iw -= ih`
otherwise) before halving into the AABB bounds; (b) the `HALF_REVERSE` case
of the switch has no `break`, so after performing its own updates it falls
through into the `DEGENERATE` case, which overwrites the radius with
`width/2` and zeroes the bounds. -/
def resize (s0 : CapsuleObstacle) (size : Size) : CapsuleObstacle :=
  -- float iw = size.width; float ih = size.height;
  -- if (width > height) ih -= iw; else iw -= ih;
  let p : ℚ × ℚ :=
    if size.width > size.height then (size.width, size.height - size.width)
    else (size.width - size.height, size.height)
  let iw := p.1
  let ih := p.2
  let ub0 : Vec2 := ⟨iw / 2, ih / 2⟩
  let lb0 : Vec2 := ⟨-iw / 2, -ih / 2⟩
  let eps := s0.seamEpsilon
  -- switch (_orient): result is (r, lowerBound, upperBound)
  let res : ℚ × Vec2 × Vec2 :=
    match s0.orient with
    | Capsule.FULL =>
        if size.width > size.height then
          let r := size.height / 2
          (r, ⟨lb0.x + r, lb0.y + eps⟩, ⟨ub0.x - r, ub0.y - eps⟩)
        else
          let r := size.width / 2
          (r, ⟨lb0.x + eps, lb0.y + r⟩, ⟨ub0.x - eps, ub0.y - r⟩)
    | Capsule.HALF =>
        if size.width > size.height then
          let r := size.height / 2
          (r, ⟨lb0.x, lb0.y + eps⟩, ⟨ub0.x - r, ub0.y - eps⟩)
        else
          let r := size.width / 2
          (r, ⟨lb0.x + eps, lb0.y + r⟩, ⟨ub0.x - eps, ub0.y⟩)
    | Capsule.HALF_REVERSE =>
        -- the case body executes first ...
        let hr : ℚ × Vec2 × Vec2 :=
          if size.width > size.height then
            let r := size.height / 2
            (r, ⟨lb0.x + r, lb0.y + eps⟩, ⟨ub0.x, ub0.y - eps⟩)
          else
            let r := size.width / 2
            (r, ⟨lb0.x + eps, lb0.y⟩, ⟨ub0.x - eps, ub0.y - r⟩)
        -- ... but the source has no `break` here, so control falls through
        -- into the DEGENERATE case, overwriting radius and bounds:
        let _ := hr
        (size.width / 2, ⟨0, 0⟩, ⟨0, 0⟩)
    | Capsule.DEGENERATE =>
        (size.width / 2, ⟨0, 0⟩, ⟨0, 0⟩)
  let r := res.1
  let lb1 := res.2.1
  let ub1 := res.2.2
  -- Handle degenerate polys
  let xb : ℚ × ℚ :=
    if lb1.x = ub1.x then (lb1.x - eps, ub1.x + eps) else (lb1.x, ub1.x)
  let yb : ℚ × ℚ :=
    if lb1.y = ub1.y then (lb1.y - eps, ub1.y + eps) else (lb1.y, ub1.y)
  let lb : Vec2 := ⟨xb.1, yb.1⟩
  let ub : Vec2 := ⟨xb.2, yb.2⟩
  -- Make the box for the core (_shape.Set(corners, 4))
  let corners : List Vec2 := [⟨lb.x, lb.y⟩, ⟨lb.x, ub.y⟩, ⟨ub.x, ub.y⟩, ⟨ub.x, lb.y⟩]
  { s0 with
      dimension := size
      center := ⟨lb, ub⟩
      shapeCorners := corners
      endsRadius := r
      dirty := true }

/-- `CapsuleObstacle::setShape(poly2::Capsule value)`, lines 203-208. -/
def setShape (s : CapsuleObstacle) (value : Capsule) : CapsuleObstacle :=
  if value ≠ s.orient then resize { s with orient := value } s.dimension else s

/-- `CapsuleObstacle::setDensity(float value)`, lines 256-274.  Each guard
tests both the real and the draw handle, exactly as in the source; the
three if-blocks touch disjoint fields and none of them changes a handle's
presence, so they are assembled in one record update.  The trailing
`ResetMassData` calls touch body mass only, not any fixture, so they have
no effect on the modelled state. -/
def setDensity (s : CapsuleObstacle) (value : ℚ) : CapsuleObstacle :=
  { s with
      fixtureDensity := value
      realcore :=
        if s.realcore.isSome && s.drawcore.isSome then
          s.realcore.map fun f => { f with density := value }
        else s.realcore
      drawcore :=
        if s.realcore.isSome && s.drawcore.isSome then
          s.drawcore.map fun f => { f with density := value }
        else s.drawcore
      realcap1 :=
        if s.realcap1.isSome && s.drawcap1.isSome then
          s.realcap1.map fun f => { f with density := value / 2 }
        else s.realcap1
      drawcap1 :=
        if s.realcap1.isSome && s.drawcap1.isSome then
          s.drawcap1.map fun f => { f with density := value / 2 }
        else s.drawcap1
      realcap2 :=
        if s.realcap2.isSome && s.drawcap2.isSome then
          s.realcap2.map fun f => { f with density := value / 2 }
        else s.realcap2
      drawcap2 :=
        if s.realcap2.isSome && s.drawcap2.isSome then
          s.drawcap2.map fun f => { f with density := value / 2 }
        else s.drawcap2 }

/-- `CapsuleObstacle::releaseFixtures()`, lines 383-402: destroy whichever
of core/cap1/cap2 are non-null on both bodies (one DestroyFixture call per
body and pair) and clear the handles.  The three if-blocks touch disjoint
handle pairs, so they are assembled in one record update with the destroy
counts summed. -/
def releaseFixtures (s : CapsuleObstacle) : CapsuleObstacle :=
  let ncore : Nat := if s.realcore.isSome && s.drawcore.isSome then 1 else 0
  let ncap1 : Nat := if s.realcap1.isSome && s.drawcap1.isSome then 1 else 0
  let ncap2 : Nat := if s.realcap2.isSome && s.drawcap2.isSome then 1 else 0
  { s with
      realcore := if s.realcore.isSome && s.drawcore.isSome then none else s.realcore
      drawcore := if s.realcore.isSome && s.drawcore.isSome then none else s.drawcore
      realcap1 := if s.realcap1.isSome && s.drawcap1.isSome then none else s.realcap1
      drawcap1 := if s.realcap1.isSome && s.drawcap1.isSome then none else s.drawcap1
      realcap2 := if s.realcap2.isSome && s.drawcap2.isSome then none else s.realcap2
      drawcap2 := if s.realcap2.isSome && s.drawcap2.isSome then none else s.drawcap2
      realDestroyed := s.realDestroyed + (ncore + ncap1 + ncap2)
      drawDestroyed := s.drawDestroyed + (ncore + ncap1 + ncap2) }

/-- `CapsuleObstacle::createFixtures()`, lines 281-376.  Returns the state
unchanged when either body is missing; otherwise releases any existing
fixtures first, resolves the true orientation (`DEGENERATE` whenever
`width == height`), creates the core polygon fixture unless degenerate,
then the cap circle fixtures per the switch (halving `_fixture.density`
around the cap creations and restoring it by doubling afterwards). -/
def createFixtures (s0 : CapsuleObstacle) : CapsuleObstacle :=
  if !s0.attached then s0
  else
    let s := releaseFixtures s0
    let trueOrient : Capsule :=
      if s.dimension.width = s.dimension.height then Capsule.DEGENERATE else s.orient
    -- Create the core fixture (the handles are explicitly nulled in the
    -- degenerate case; both bodies receive a copy of the same descriptor)
    let core : Option Fixture :=
      if trueOrient = Capsule.DEGENERATE then none
      else some ⟨B2Shape.polygon s.shapeCorners, s.fixtureDensity⟩
    let coreCount : Nat := if trueOrient = Capsule.DEGENERATE then 0 else 1
    -- _ends.m_p.Set(0, 0); then the switch.  The source mutates the shared
    -- `_ends.m_p` and `_fixture.density` step by step; the net values each
    -- CreateFixture call snapshots are threaded here explicitly.  `capsRes`
    -- is (cap1, cap2, final m_p, final density, cap CreateFixture calls).
    let d := s.fixtureDensity
    let capsRes : Option Fixture × Option Fixture × Vec2 × ℚ × Nat :=
      match trueOrient with
      | Capsule.FULL =>
          -- _fixture.density halved before the two caps, doubled back after
          if s.dimension.width > s.dimension.height then
            (some ⟨B2Shape.circle ⟨s.center.lowerBound.x, 0⟩ s.endsRadius, d / 2⟩,
             some ⟨B2Shape.circle ⟨s.center.upperBound.x, 0⟩ s.endsRadius, d / 2⟩,
             ⟨s.center.upperBound.x, 0⟩, d / 2 * 2, 2)
          else
            (some ⟨B2Shape.circle ⟨0, s.center.upperBound.y⟩ s.endsRadius, d / 2⟩,
             some ⟨B2Shape.circle ⟨0, s.center.lowerBound.y⟩ s.endsRadius, d / 2⟩,
             ⟨0, s.center.lowerBound.y⟩, d / 2 * 2, 2)
      | Capsule.HALF =>
          if s.dimension.width > s.dimension.height then
            (some ⟨B2Shape.circle ⟨s.center.lowerBound.x, 0⟩ s.endsRadius, d / 2⟩,
             none, ⟨s.center.lowerBound.x, 0⟩, d / 2 * 2, 1)
          else
            (some ⟨B2Shape.circle ⟨0, s.center.lowerBound.y⟩ s.endsRadius, d / 2⟩,
             none, ⟨0, s.center.lowerBound.y⟩, d / 2 * 2, 1)
      | Capsule.HALF_REVERSE =>
          if s.dimension.width > s.dimension.height then
            (some ⟨B2Shape.circle ⟨s.center.upperBound.x, 0⟩ s.endsRadius, d / 2⟩,
             none, ⟨s.center.upperBound.x, 0⟩, d / 2 * 2, 1)
          else
            (some ⟨B2Shape.circle ⟨0, s.center.upperBound.y⟩ s.endsRadius, d / 2⟩,
             none, ⟨0, s.center.upperBound.y⟩, d / 2 * 2, 1)
      | Capsule.DEGENERATE =>
          -- the single circle is created at the FULL stored density
          (some ⟨B2Shape.circle ⟨0, 0⟩ s.endsRadius, d⟩, none, ⟨0, 0⟩, d, 1)
    { s with
        realcore := core, drawcore := core
        realcap1 := capsRes.1, drawcap1 := capsRes.1
        realcap2 := capsRes.2.1, drawcap2 := capsRes.2.1
        endsP := capsRes.2.2.1
        fixtureDensity := capsRes.2.2.2.1
        dirty := false
        realCreated := s.realCreated + coreCount + capsRes.2.2.2.2
        drawCreated := s.drawCreated + coreCount + capsRes.2.2.2.2 }

/-- `CapsuleObstacle::setSeamOffset(float value)`, lines 414-417.
`CUAssertLog(value > 0, ...)` aborts before any mutation when the value is
non-positive, modelled as `none`; otherwise the epsilon is stored and the
obstacle marked dirty.  Nothing else is touched. -/
def setSeamOffset (s : CapsuleObstacle) (value : ℚ) : Option CapsuleObstacle :=
  if value > 0 then some { s with seamEpsilon := value, dirty := true } else none

/-- `CapsuleObstacle::init(pos, size, shape)`, lines 77-86.  The source
unconditionally nulls the three real-body handles, stores the orientation,
resets the seam epsilon to the default, resizes, and returns `true`; the
return value of `Obstacle::init(pos)` is discarded (position is outside the
modelled geometry state). -/
def init (s : CapsuleObstacle) (size : Size) (shape : Capsule) :
    CapsuleObstacle × Bool :=
  let s := { s with realcore := none, realcap1 := none, realcap2 := none
                    orient := shape, seamEpsilon := DEFAULT_EPSILON }
  (resize s size, true)

/-- A freshly constructed obstacle (the constructor sets attributes to
defaults: no fixtures, no bodies attached, Box2D's default fixture density
0, zero shapes). -/
def mkObstacle : CapsuleObstacle where
  dimension := ⟨0, 0⟩
  orient := Capsule.FULL
  seamEpsilon := DEFAULT_EPSILON
  center := ⟨⟨0, 0⟩, ⟨0, 0⟩⟩
  shapeCorners := []
  endsRadius := 0
  endsP := ⟨0, 0⟩
  fixtureDensity := 0
  realcore := none
  drawcore := none
  realcap1 := none
  drawcap1 := none
  realcap2 := none
  drawcap2 := none
  attached := false
  masseffect := false
  dirty := false
  realCreated := 0
  realDestroyed := 0
  drawCreated := 0
  drawDestroyed := 0

/-- Modelled from the spec: body attachment (`activatePhysics`, which
assigns `_realbody` and `_drawbody`) lives in the obstacle base class
outside the provided sources; per the spec's lifecycle it only moves the
obstacle from UNATTACHED to ATTACHED, so it is modelled as setting the
attachment flag. -/
def attachBodies (s : CapsuleObstacle) : CapsuleObstacle :=
  { s with attached := true }

end CapsuleModel

namespace CapsuleModel

/-- Claim C1 (failing evaluation): for extent (4,2), orientation
HALF_REVERSE, seam epsilon 0.01, the claim asserts a cap radius of 1 (half
the minor-axis extent) and a core-rectangle x-span of 3 (major extent 4
minus one cap radius, deflated at the low end).  The code instead falls
through from the HALF_REVERSE case into the DEGENERATE case (missing
`break`), producing radius 2 (= width/2, half the MAJOR axis) and a core
rectangle collapsed to the ±0.01 square by the degenerate-axis guard. -/
theorem C1_halfReverse_fallthrough_eval :
    ((init mkObstacle ⟨4, 2⟩ Capsule.HALF_REVERSE).1.endsRadius = 2 ∧
      (init mkObstacle ⟨4, 2⟩ Capsule.HALF_REVERSE).1.center =
        ⟨⟨-1/100, -1/100⟩, ⟨1/100, 1/100⟩⟩) ∧
    (init mkObstacle ⟨4, 2⟩ Capsule.HALF_REVERSE).1.endsRadius ≠ 1 ∧
    (init mkObstacle ⟨4, 2⟩ Capsule.HALF_REVERSE).1.center.upperBound.x -
      (init mkObstacle ⟨4, 2⟩ Capsule.HALF_REVERSE).1.center.lowerBound.x ≠ 3 := by
  norm_num [init, resize, mkObstacle, DEFAULT_EPSILON, AABB.mk.injEq, Vec2.mk.injEq]

/-- Claim C2 (failing evaluation): the claim asserts that after every
resize the stored core rectangle has lower-bound strictly below upper-bound
on both axes.  For extent (4,2), orientation FULL, seam epsilon 0.01 the
code stores y-bounds lower = 1.01 and upper = -1.01 — an inverted span —
because the resize preamble replaces the minor height extent by
height - width before halving into the AABB. -/
theorem C2_inverted_span_eval :
    (init mkObstacle ⟨4, 2⟩ Capsule.FULL).1.center.lowerBound.y = 101/100 ∧
    (init mkObstacle ⟨4, 2⟩ Capsule.FULL).1.center.upperBound.y = -(101/100) ∧
    ¬ (init mkObstacle ⟨4, 2⟩ Capsule.FULL).1.center.lowerBound.y <
        (init mkObstacle ⟨4, 2⟩ Capsule.FULL).1.center.upperBound.y := by
  norm_num [init, resize, mkObstacle, DEFAULT_EPSILON]

/-- Claim C3 (failing evaluation): extent (4,2), FULL, seam epsilon 0.01.
The code does give radius 1, core x-span [-1,1], and the two cap circles of
radius 1 at x = -1 and x = 1, as the claim states; but the core rectangle's
y-bounds come out as lower = 1.01, upper = -1.01 instead of the claimed
[-0.99, 0.99], again due to the preamble's height - width substitution. -/
theorem C3_full_scenario_eval :
    ((createFixtures (attachBodies (init mkObstacle ⟨4, 2⟩ Capsule.FULL).1)).endsRadius = 1 ∧
      (createFixtures (attachBodies (init mkObstacle ⟨4, 2⟩ Capsule.FULL).1)).center.lowerBound.x = -1 ∧
      (createFixtures (attachBodies (init mkObstacle ⟨4, 2⟩ Capsule.FULL).1)).center.upperBound.x = 1 ∧
      (createFixtures (attachBodies (init mkObstacle ⟨4, 2⟩ Capsule.FULL).1)).realcap1 =
        some ⟨B2Shape.circle ⟨-1, 0⟩ 1, 0⟩ ∧
      (createFixtures (attachBodies (init mkObstacle ⟨4, 2⟩ Capsule.FULL).1)).realcap2 =
        some ⟨B2Shape.circle ⟨1, 0⟩ 1, 0⟩) ∧
    (createFixtures (attachBodies (init mkObstacle ⟨4, 2⟩ Capsule.FULL).1)).center.lowerBound.y = 101/100 ∧
    (createFixtures (attachBodies (init mkObstacle ⟨4, 2⟩ Capsule.FULL).1)).center.upperBound.y = -(101/100) ∧
    (createFixtures (attachBodies (init mkObstacle ⟨4, 2⟩ Capsule.FULL).1)).center.lowerBound.y ≠ -(99/100) := by
  norm_num [init, resize, mkObstacle, DEFAULT_EPSILON, attachBodies, createFixtures,
    releaseFixtures, Fixture.mk.injEq, B2Shape.circle.injEq, Vec2.mk.injEq]

/-- Claim C5: a square extent (2,2) with requested orientation FULL
resolves to true orientation DEGENERATE: createFixtures attaches no core
rectangle fixture and exactly one circular fixture of radius 1 at the local
origin on each of the real and draw bodies (one CreateFixture call issued
per body). -/
theorem C5_square_degenerate_single_circle :
    (createFixtures (attachBodies (init mkObstacle ⟨2, 2⟩ Capsule.FULL).1)).realcore = none ∧
    (createFixtures (attachBodies (init mkObstacle ⟨2, 2⟩ Capsule.FULL).1)).drawcore = none ∧
    (createFixtures (attachBodies (init mkObstacle ⟨2, 2⟩ Capsule.FULL).1)).realcap1 =
      some ⟨B2Shape.circle ⟨0, 0⟩ 1, 0⟩ ∧
    (createFixtures (attachBodies (init mkObstacle ⟨2, 2⟩ Capsule.FULL).1)).drawcap1 =
      some ⟨B2Shape.circle ⟨0, 0⟩ 1, 0⟩ ∧
    (createFixtures (attachBodies (init mkObstacle ⟨2, 2⟩ Capsule.FULL).1)).realcap2 = none ∧
    (createFixtures (attachBodies (init mkObstacle ⟨2, 2⟩ Capsule.FULL).1)).drawcap2 = none ∧
    (createFixtures (attachBodies (init mkObstacle ⟨2, 2⟩ Capsule.FULL).1)).realCreated = 1 ∧
    (createFixtures (attachBodies (init mkObstacle ⟨2, 2⟩ Capsule.FULL).1)).drawCreated = 1 := by
  norm_num [init, resize, mkObstacle, DEFAULT_EPSILON, attachBodies, createFixtures,
    releaseFixtures, Fixture.mk.injEq, B2Shape.circle.injEq, Vec2.mk.injEq]

/-- Claim C9 (failing evaluation): initializing an already-initialized
obstacle (first with extent (4,2) and orientation HALF, then again with
extent (6,2) and orientation FULL) returns true — not the claimed failure —
and overwrites the previously initialized orientation and dimension. -/
theorem C9_double_init_overwrites :
    (init (init mkObstacle ⟨4, 2⟩ Capsule.HALF).1 ⟨6, 2⟩ Capsule.FULL).2 = true ∧
    (init (init mkObstacle ⟨4, 2⟩ Capsule.HALF).1 ⟨6, 2⟩ Capsule.FULL).1.orient = Capsule.FULL ∧
    (init (init mkObstacle ⟨4, 2⟩ Capsule.HALF).1 ⟨6, 2⟩ Capsule.FULL).1.orient ≠ Capsule.HALF ∧
    (init (init mkObstacle ⟨4, 2⟩ Capsule.HALF).1 ⟨6, 2⟩ Capsule.FULL).1.dimension = ⟨6, 2⟩ := by
  norm_num [init, resize, mkObstacle, DEFAULT_EPSILON, Size.mk.injEq]
  exact fun h => Capsule.noConfusion h

/-- Claim C8 (counterexample): after the first init with extent (4,2),
orientation FULL, seam epsilon 0.01, calling setSeamOffset(1/2) succeeds
and stores the new epsilon — but the stored core rectangle is exactly the
old one (computed with epsilon 0.01), not the rectangle that resize would
compute with the new epsilon: the claimed "exactly as if resize had been
called with the current dimension" fails. -/
theorem C8_stale_geometry_cex :
    setSeamOffset (init mkObstacle ⟨4, 2⟩ Capsule.FULL).1 (1/2) =
      some { (init mkObstacle ⟨4, 2⟩ Capsule.FULL).1 with seamEpsilon := 1/2, dirty := true } ∧
    (setSeamOffset (init mkObstacle ⟨4, 2⟩ Capsule.FULL).1 (1/2)).map CapsuleObstacle.center =
      some (init mkObstacle ⟨4, 2⟩ Capsule.FULL).1.center ∧
    (setSeamOffset (init mkObstacle ⟨4, 2⟩ Capsule.FULL).1 (1/2)).map CapsuleObstacle.center ≠
      some (resize { (init mkObstacle ⟨4, 2⟩ Capsule.FULL).1 with seamEpsilon := 1/2 }
        (init mkObstacle ⟨4, 2⟩ Capsule.FULL).1.dimension).center := by
  norm_num [init, resize, mkObstacle, DEFAULT_EPSILON, setSeamOffset,
    AABB.mk.injEq, Vec2.mk.injEq]

end CapsuleModel

namespace CapsuleModel

/-- Helper: releaseFixtures only touches handle fields and destroy
counters; the geometry fields are untouched. -/
theorem releaseFixtures_dimension (s : CapsuleObstacle) :
    (releaseFixtures s).dimension = s.dimension := rfl

theorem releaseFixtures_orient (s : CapsuleObstacle) :
    (releaseFixtures s).orient = s.orient := rfl

theorem releaseFixtures_center (s : CapsuleObstacle) :
    (releaseFixtures s).center = s.center := rfl

theorem releaseFixtures_shapeCorners (s : CapsuleObstacle) :
    (releaseFixtures s).shapeCorners = s.shapeCorners := rfl

theorem releaseFixtures_endsRadius (s : CapsuleObstacle) :
    (releaseFixtures s).endsRadius = s.endsRadius := rfl

theorem releaseFixtures_fixtureDensity (s : CapsuleObstacle) :
    (releaseFixtures s).fixtureDensity = s.fixtureDensity := rfl

theorem releaseFixtures_attached (s : CapsuleObstacle) :
    (releaseFixtures s).attached = s.attached := rfl

theorem releaseFixtures_seamEpsilon (s : CapsuleObstacle) :
    (releaseFixtures s).seamEpsilon = s.seamEpsilon := rfl

theorem releaseFixtures_realCreated (s : CapsuleObstacle) :
    (releaseFixtures s).realCreated = s.realCreated := rfl

theorem releaseFixtures_drawCreated (s : CapsuleObstacle) :
    (releaseFixtures s).drawCreated = s.drawCreated := rfl

/-- The two-body mirroring invariant: the real body's handles and the draw
body's handles agree pairwise (same presence, same shape parameters, same
density — a created pair always snapshots the same descriptor). -/
def mirrored (s : CapsuleObstacle) : Prop :=
  s.realcore = s.drawcore ∧ s.realcap1 = s.drawcap1 ∧ s.realcap2 = s.drawcap2

/-- Claim C4: while both bodies are attached, a resize, a setShape
(orientation change), or a setDensity call keeps the authoritative (real)
body's fixture set and the reference (draw) body's fixture set structurally
identical — fixture for fixture, same shape parameters and density. -/
theorem C4_mirroring_preserved (s : CapsuleObstacle) (sz : Size) (v : Capsule) (d : ℚ)
    (hs : s.attached = true) (h : mirrored s) :
    mirrored (resize s sz) ∧ mirrored (setShape s v) ∧ mirrored (setDensity s d) := by
  obtain ⟨h1, h2, h3⟩ := h
  refine ⟨⟨h1, h2, h3⟩, ?_, ?_⟩
  · unfold setShape
    split_ifs <;> exact ⟨h1, h2, h3⟩
  · exact ⟨by simp [setDensity, h1], by simp [setDensity, h2], by simp [setDensity, h3]⟩

/-- Witness for C4 at a concrete attached, mirrored state. -/
theorem C4_mirroring_preserved_witness :
    ((attachBodies mkObstacle).attached = true ∧ mirrored (attachBodies mkObstacle)) ∧
    (mirrored (resize (attachBodies mkObstacle) ⟨4, 2⟩) ∧
     mirrored (setShape (attachBodies mkObstacle) Capsule.HALF) ∧
     mirrored (setDensity (attachBodies mkObstacle) 10)) :=
  ⟨⟨rfl, ⟨rfl, rfl, rfl⟩⟩,
   C4_mirroring_preserved (attachBodies mkObstacle) ⟨4, 2⟩ Capsule.HALF 10 rfl ⟨rfl, rfl, rfl⟩⟩

/-- Claim C7: setSeamOffset with any non-positive value fails (the
assertion aborts) without producing any mutated state: the stored seam
epsilon is left unchanged because the rejection happens before the
assignment. -/
theorem C7_seamOffset_rejects (s : CapsuleObstacle) (v : ℚ) (h : v ≤ 0) :
    setSeamOffset s v = none := by
  unfold setSeamOffset
  rw [if_neg (not_lt.mpr h)]

/-- Witness for C7 at the claim's two concrete inputs, 0 and -1. -/
theorem C7_seamOffset_rejects_witness :
    ((0 : ℚ) ≤ 0 ∧ setSeamOffset mkObstacle 0 = none) ∧
    ((-1 : ℚ) ≤ 0 ∧ setSeamOffset mkObstacle (-1) = none) :=
  ⟨⟨le_refl 0, C7_seamOffset_rejects mkObstacle 0 (le_refl 0)⟩,
   ⟨by norm_num, C7_seamOffset_rejects mkObstacle (-1) (by norm_num)⟩⟩

/-- Claim C8 (amended): for every positive value, setSeamOffset stores the
new seam epsilon and marks the obstacle dirty — the same refixture trigger
resize ends with — but changes nothing else: in particular the stored core
rectangle and shapes are NOT recomputed with the new epsilon; they change
only at the next resize/setShape. -/
theorem C8_seamOffset_updates (s : CapsuleObstacle) (v : ℚ) (h : 0 < v) :
    setSeamOffset s v = some { s with seamEpsilon := v, dirty := true } := by
  unfold setSeamOffset
  rw [if_pos h]

/-- Witness for C8's amended theorem at a concrete positive value. -/
theorem C8_seamOffset_updates_witness :
    (0 : ℚ) < 1 ∧
      setSeamOffset mkObstacle 1 = some { mkObstacle with seamEpsilon := 1, dirty := true } :=
  ⟨by norm_num, C8_seamOffset_updates mkObstacle 1 (by norm_num)⟩

/-- Claim C10: when the true orientation is DEGENERATE (width equals
height, or requested orientation DEGENERATE), createFixtures creates the
single circular fixture at the full stored material density on both
bodies; a subsequent setDensity with that same stored density halves the
circle's density to value/2 (the setter treats it as a cap). -/
theorem C10_degenerate_density (s : CapsuleObstacle) (hs : s.attached = true)
    (hdeg : s.dimension.width = s.dimension.height ∨ s.orient = Capsule.DEGENERATE) :
    ((createFixtures s).realcap1.map Fixture.density = some s.fixtureDensity ∧
     (createFixtures s).drawcap1.map Fixture.density = some s.fixtureDensity) ∧
    ((setDensity (createFixtures s) s.fixtureDensity).realcap1.map Fixture.density =
       some (s.fixtureDensity / 2) ∧
     (setDensity (createFixtures s) s.fixtureDensity).drawcap1.map Fixture.density =
       some (s.fixtureDensity / 2)) := by
  rcases hdeg with h | h
  · simp [createFixtures, hs, setDensity, releaseFixtures_dimension,
      releaseFixtures_fixtureDensity, releaseFixtures_endsRadius, h]
  · by_cases hwh : s.dimension.width = s.dimension.height
    · simp [createFixtures, hs, setDensity, releaseFixtures_dimension,
        releaseFixtures_fixtureDensity, releaseFixtures_endsRadius, hwh]
    · simp [createFixtures, hs, setDensity, releaseFixtures_dimension,
        releaseFixtures_orient, releaseFixtures_fixtureDensity,
        releaseFixtures_endsRadius, hwh, h]

/-- Witness for C10 at a concrete attached square state with stored
density 10: the circle is created at density 10, and setDensity(10) then
drops it to 5. -/
theorem C10_degenerate_density_witness :
    ((setDensity (attachBodies (init mkObstacle ⟨2, 2⟩ Capsule.FULL).1) 10).attached = true ∧
     ((setDensity (attachBodies (init mkObstacle ⟨2, 2⟩ Capsule.FULL).1) 10).dimension.width =
        (setDensity (attachBodies (init mkObstacle ⟨2, 2⟩ Capsule.FULL).1) 10).dimension.height ∨
      (setDensity (attachBodies (init mkObstacle ⟨2, 2⟩ Capsule.FULL).1) 10).orient =
        Capsule.DEGENERATE)) ∧
    (((createFixtures (setDensity (attachBodies (init mkObstacle ⟨2, 2⟩ Capsule.FULL).1) 10)).realcap1.map
          Fixture.density =
        some (setDensity (attachBodies (init mkObstacle ⟨2, 2⟩ Capsule.FULL).1) 10).fixtureDensity ∧
      (createFixtures (setDensity (attachBodies (init mkObstacle ⟨2, 2⟩ Capsule.FULL).1) 10)).drawcap1.map
          Fixture.density =
        some (setDensity (attachBodies (init mkObstacle ⟨2, 2⟩ Capsule.FULL).1) 10).fixtureDensity) ∧
     ((setDensity (createFixtures (setDensity (attachBodies (init mkObstacle ⟨2, 2⟩ Capsule.FULL).1) 10))
            (setDensity (attachBodies (init mkObstacle ⟨2, 2⟩ Capsule.FULL).1) 10).fixtureDensity).realcap1.map
          Fixture.density =
        some ((setDensity (attachBodies (init mkObstacle ⟨2, 2⟩ Capsule.FULL).1) 10).fixtureDensity / 2) ∧
      (setDensity (createFixtures (setDensity (attachBodies (init mkObstacle ⟨2, 2⟩ Capsule.FULL).1) 10))
            (setDensity (attachBodies (init mkObstacle ⟨2, 2⟩ Capsule.FULL).1) 10).fixtureDensity).drawcap1.map
          Fixture.density =
        some ((setDensity (attachBodies (init mkObstacle ⟨2, 2⟩ Capsule.FULL).1) 10).fixtureDensity / 2))) :=
  ⟨⟨rfl, Or.inl (by norm_num [init, resize, mkObstacle, DEFAULT_EPSILON, attachBodies, setDensity])⟩,
   C10_degenerate_density _ rfl
     (Or.inl (by norm_num [init, resize, mkObstacle, DEFAULT_EPSILON, attachBodies, setDensity]))⟩

end CapsuleModel

namespace CapsuleModel

/-- Number of live fixture handles on the real body. -/
def realHandles (s : CapsuleObstacle) : Nat :=
  (if s.realcore.isSome then 1 else 0) + (if s.realcap1.isSome then 1 else 0) +
    (if s.realcap2.isSome then 1 else 0)

/-- Number of live fixture handles on the draw body. -/
def drawHandles (s : CapsuleObstacle) : Nat :=
  (if s.drawcore.isSome then 1 else 0) + (if s.drawcap1.isSome then 1 else 0) +
    (if s.drawcap2.isSome then 1 else 0)

/-- No native handle leaks: on each body, every CreateFixture call is
accounted for either by a DestroyFixture call or by a live handle. -/
def noLeak (s : CapsuleObstacle) : Prop :=
  s.realCreated = s.realDestroyed + realHandles s ∧
  s.drawCreated = s.drawDestroyed + drawHandles s

/-- The six fixture handles (shape parameters and densities) of both
bodies, as one tuple. -/
def fixtureSet (s : CapsuleObstacle) :
    Option Fixture × Option Fixture × Option Fixture ×
      Option Fixture × Option Fixture × Option Fixture :=
  (s.realcore, s.realcap1, s.realcap2, s.drawcore, s.drawcap1, s.drawcap2)

/-- On a mirrored state, releaseFixtures clears all six handles and issues
exactly one DestroyFixture call per live handle on each body. -/
theorem releaseFixtures_clears (s : CapsuleObstacle) (hm : mirrored s) :
    (releaseFixtures s).realcore = none ∧ (releaseFixtures s).realcap1 = none ∧
    (releaseFixtures s).realcap2 = none ∧ (releaseFixtures s).drawcore = none ∧
    (releaseFixtures s).drawcap1 = none ∧ (releaseFixtures s).drawcap2 = none ∧
    (releaseFixtures s).realDestroyed = s.realDestroyed + realHandles s ∧
    (releaseFixtures s).drawDestroyed = s.drawDestroyed + drawHandles s := by
  obtain ⟨h1, h2, h3⟩ := hm
  cases hc : s.drawcore <;> cases hc1 : s.drawcap1 <;> cases hc2 : s.drawcap2 <;>
    simp [releaseFixtures, realHandles, drawHandles, h1, h2, h3, hc, hc1, hc2]

/-- createFixtures does not change the stored dimension. -/
theorem createFixtures_dimension (s : CapsuleObstacle) (hs : s.attached = true) :
    (createFixtures s).dimension = s.dimension := by
  simp [createFixtures, hs, releaseFixtures_dimension]

/-- createFixtures does not change the stored orientation. -/
theorem createFixtures_orient (s : CapsuleObstacle) (hs : s.attached = true) :
    (createFixtures s).orient = s.orient := by
  simp [createFixtures, hs, releaseFixtures_orient]

/-- createFixtures does not change the stored core rectangle. -/
theorem createFixtures_center (s : CapsuleObstacle) (hs : s.attached = true) :
    (createFixtures s).center = s.center := by
  simp [createFixtures, hs, releaseFixtures_center]

/-- createFixtures does not change the cached polygon corners. -/
theorem createFixtures_shapeCorners (s : CapsuleObstacle) (hs : s.attached = true) :
    (createFixtures s).shapeCorners = s.shapeCorners := by
  simp [createFixtures, hs, releaseFixtures_shapeCorners]

/-- createFixtures does not change the cap radius. -/
theorem createFixtures_endsRadius (s : CapsuleObstacle) (hs : s.attached = true) :
    (createFixtures s).endsRadius = s.endsRadius := by
  simp [createFixtures, hs, releaseFixtures_endsRadius]

/-- createFixtures keeps the obstacle attached. -/
theorem createFixtures_attached (s : CapsuleObstacle) (hs : s.attached = true) :
    (createFixtures s).attached = true := by
  simp [createFixtures, hs, releaseFixtures_attached]

/-- All DestroyFixture calls of a createFixtures run happen in its initial
releaseFixtures step (real body). -/
theorem createFixtures_realDestroyed (s : CapsuleObstacle) (hs : s.attached = true) :
    (createFixtures s).realDestroyed = (releaseFixtures s).realDestroyed := by
  simp [createFixtures, hs]

/-- All DestroyFixture calls of a createFixtures run happen in its initial
releaseFixtures step (draw body). -/
theorem createFixtures_drawDestroyed (s : CapsuleObstacle) (hs : s.attached = true) :
    (createFixtures s).drawDestroyed = (releaseFixtures s).drawDestroyed := by
  simp [createFixtures, hs]

/-- createFixtures restores `_fixture.density` to its entry value (the
halving around cap creation is undone by the doubling after it). -/
theorem createFixtures_fixtureDensity (s : CapsuleObstacle) (hs : s.attached = true) :
    (createFixtures s).fixtureDensity = s.fixtureDensity := by
  by_cases hwh : s.dimension.width = s.dimension.height
  · simp [createFixtures, hs, releaseFixtures_dimension, releaseFixtures_fixtureDensity, hwh]
  · cases ho : s.orient <;>
      simp [createFixtures, hs, releaseFixtures_dimension, releaseFixtures_orient,
        releaseFixtures_fixtureDensity, hwh, ho] <;>
      split_ifs <;> ring

/-- The fixture set produced by createFixtures depends only on the
geometry fields (dimension, orientation, core rectangle, polygon corners,
cap radius, stored density), not on previously existing handles. -/
theorem createFixtures_congr (s t : CapsuleObstacle)
    (hs : s.attached = true) (ht : t.attached = true)
    (hdim : s.dimension = t.dimension) (hor : s.orient = t.orient)
    (hc : s.center = t.center) (hsc : s.shapeCorners = t.shapeCorners)
    (hr : s.endsRadius = t.endsRadius) (hd : s.fixtureDensity = t.fixtureDensity) :
    fixtureSet (createFixtures s) = fixtureSet (createFixtures t) := by
  simp [createFixtures, fixtureSet, hs, ht, releaseFixtures_dimension,
    releaseFixtures_orient, releaseFixtures_center, releaseFixtures_shapeCorners,
    releaseFixtures_endsRadius, releaseFixtures_fixtureDensity,
    hdim, hor, hc, hsc, hr, hd]

/-- Each CreateFixture call of a createFixtures run is accounted for by a
live handle afterwards: the creation phase issues exactly one call per
handle it installs. -/
theorem createFixtures_counts (s : CapsuleObstacle) (hs : s.attached = true) :
    (createFixtures s).realCreated =
      (releaseFixtures s).realCreated + realHandles (createFixtures s) ∧
    (createFixtures s).drawCreated =
      (releaseFixtures s).drawCreated + drawHandles (createFixtures s) := by
  by_cases hwh : s.dimension.width = s.dimension.height
  · simp [createFixtures, realHandles, drawHandles, hs, releaseFixtures_dimension, hwh]
  · cases ho : s.orient <;>
      by_cases hgt : s.dimension.height < s.dimension.width <;>
        simp [createFixtures, realHandles, drawHandles, hs, releaseFixtures_dimension,
          releaseFixtures_orient, hwh, ho, hgt]

/-- Claim C6: for every attached obstacle in any geometry state (mirrored
handle pairs, no pre-existing leak), the sequence createFixtures;
releaseFixtures; createFixtures reproduces exactly the fixture set (shape
parameters and densities, on both bodies) of the first createFixtures
call; moreover createFixtures destroys every previously live handle before
creating new ones (its destroy count increases by exactly the number of
live handles) and preserves the no-leak accounting, so no handle is
created twice without an intervening destroy. -/
theorem C6_roundtrip_and_release_first (s : CapsuleObstacle) (hs : s.attached = true)
    (hm : mirrored s) (hinv : noLeak s) :
    fixtureSet (createFixtures (releaseFixtures (createFixtures s))) =
      fixtureSet (createFixtures s) ∧
    (createFixtures s).realDestroyed = s.realDestroyed + realHandles s ∧
    (createFixtures s).drawDestroyed = s.drawDestroyed + drawHandles s ∧
    noLeak (createFixtures s) := by
  have hca := createFixtures_attached s hs
  have hrel := releaseFixtures_clears s hm
  refine ⟨?_, ?_, ?_, ?_⟩
  · exact createFixtures_congr _ _ (by rw [releaseFixtures_attached]; exact hca) hs
      (by rw [releaseFixtures_dimension, createFixtures_dimension s hs])
      (by rw [releaseFixtures_orient, createFixtures_orient s hs])
      (by rw [releaseFixtures_center, createFixtures_center s hs])
      (by rw [releaseFixtures_shapeCorners, createFixtures_shapeCorners s hs])
      (by rw [releaseFixtures_endsRadius, createFixtures_endsRadius s hs])
      (by rw [releaseFixtures_fixtureDensity, createFixtures_fixtureDensity s hs])
  · rw [createFixtures_realDestroyed s hs]
    exact hrel.2.2.2.2.2.2.1
  · rw [createFixtures_drawDestroyed s hs]
    exact hrel.2.2.2.2.2.2.2
  · obtain ⟨hc1, hc2⟩ := createFixtures_counts s hs
    obtain ⟨hl1, hl2⟩ := hinv
    constructor
    · rw [hc1, releaseFixtures_realCreated, createFixtures_realDestroyed s hs,
        hrel.2.2.2.2.2.2.1, hl1]
    · rw [hc2, releaseFixtures_drawCreated, createFixtures_drawDestroyed s hs,
        hrel.2.2.2.2.2.2.2, hl2]

/-- Witness for C6 at a concrete attached, mirrored, leak-free state. -/
theorem C6_roundtrip_witness :
    ((attachBodies mkObstacle).attached = true ∧ mirrored (attachBodies mkObstacle) ∧
      noLeak (attachBodies mkObstacle)) ∧
    (fixtureSet (createFixtures (releaseFixtures (createFixtures (attachBodies mkObstacle)))) =
        fixtureSet (createFixtures (attachBodies mkObstacle)) ∧
      (createFixtures (attachBodies mkObstacle)).realDestroyed =
        (attachBodies mkObstacle).realDestroyed + realHandles (attachBodies mkObstacle) ∧
      (createFixtures (attachBodies mkObstacle)).drawDestroyed =
        (attachBodies mkObstacle).drawDestroyed + drawHandles (attachBodies mkObstacle) ∧
      noLeak (createFixtures (attachBodies mkObstacle))) :=
  ⟨⟨rfl, ⟨rfl, rfl, rfl⟩, ⟨rfl, rfl⟩⟩,
   C6_roundtrip_and_release_first (attachBodies mkObstacle) rfl ⟨rfl, rfl, rfl⟩ ⟨rfl, rfl⟩⟩

end CapsuleModel
